import Mathlib

/-!
# Verification of the ai-newsletter discovery and summarization pipeline

Shallow embedding of the core logic of `src/search_papers.py` and
`src/summarize_papers.py` (git repository `bennytaccardi/ai-newsletter`).

Conventions used throughout:
* Python machine floats are modelled as rationals (`ℚ`); the arithmetic in the
  scorer involves only small decimal constants and divisions, so no statement
  below depends on binary floating-point rounding.
* Python `round(x, n)` (banker's rounding on floats) is modelled as rounding
  to the nearest multiple of `10 ^ (-n)` (an executable form of Mathlib's
  `round`); the two differ only at exact half-multiples of `10 ^ (-n)`, which
  no statement below touches.
* `datetime.now().year` is an explicit `currentYear : ℤ` parameter.
* Strings are processed as their `List Char` of code points, matching Python's
  per-code-point string semantics (slicing, regexes over `str`).
-/

/-! ## Python character-class helpers -/

/-- Python's `\s` character class (and the `str.strip` / `str.isspace`
whitespace set) over `str`: ASCII whitespace, the ASCII separator controls,
and the Unicode space characters. -/
def pyIsSpace (c : Char) : Bool :=
  c == ' ' || c == '\t' || c == '\n' || c == '\r' || c == '\x0b' || c == '\x0c' ||
  c == '\x1c' || c == '\x1d' || c == '\x1e' || c == '\x1f' || c == '\x85' ||
  c == '\xa0' || c == '\u1680' ||
  (('\u2000' : Char) ≤ c && c ≤ ('\u200a' : Char)) ||
  c == '\u2028' || c == '\u2029' || c == '\u202f' || c == '\u205f' || c == '\u3000'

/-- Python `str.strip()`: drop leading and trailing whitespace. -/
def pyStrip (s : String) : String :=
  ⟨((s.data.dropWhile pyIsSpace).reverse.dropWhile pyIsSpace).reverse⟩

/-! ## `_sanitize_filename` (src/summarize_papers.py, lines 41-49) -/

/-- The character class of `re.sub(r'[<>:"/\\|?*]', '', filename)`. -/
def isBadFileChar (c : Char) : Bool :=
  c == '<' || c == '>' || c == ':' || c == '"' || c == '/' ||
  c == '\\' || c == '|' || c == '?' || c == '*'

/-- `re.sub(r'\s+', '_', s)`: replace every maximal nonempty run of whitespace
by a single underscore.  The flag records whether we are inside a run whose
underscore has already been emitted. -/
def collapseWsAux : Bool → List Char → List Char
  | _, [] => []
  | inRun, c :: rest =>
    if pyIsSpace c then
      if inRun then collapseWsAux true rest
      else '_' :: collapseWsAux true rest
    else c :: collapseWsAux false rest

/-- `PaperSummarizer._sanitize_filename`: strip the forbidden characters,
collapse whitespace runs to `_`, truncate to 150 code points. -/
def _sanitize_filename (s : String) : String :=
  ⟨(collapseWsAux false (s.data.filter (fun c => !isBadFileChar c))).take 150⟩

/-- `PaperSummarizer._generate_output_filename`. -/
def _generate_output_filename (title language level : String) : String :=
  _sanitize_filename title ++ "-" ++ _sanitize_filename language ++ "-" ++
    _sanitize_filename level ++ ".html"

/-! ## Python `int(...)` parsing and the composite scorer
(src/search_papers.py, lines 38-69) -/

/-- Digit-run tail of a Python integer literal: digits, with single
underscores allowed between digits. -/
def pyIntTail : List Char → Bool
  | [] => true
  | '_' :: c :: rest => c.isDigit && pyIntTail rest
  | '_' :: [] => false
  | c :: rest => c.isDigit && pyIntTail rest

/-- A Python integer literal body: nonempty, starts with a digit,
underscores only between digits. -/
def pyIntBody : List Char → Bool
  | [] => false
  | c :: rest => c.isDigit && pyIntTail rest

/-- Numeric value of a digit string, skipping underscores. -/
def digitsVal (cs : List Char) : ℕ :=
  cs.foldl (fun n c => if c == '_' then n else n * 10 + (c.toNat - 48)) 0

/-- Python `int(s)` for a decimal string: strip whitespace, optional sign,
digits with single internal underscores; `none` models the raised
`ValueError`.  (Non-ASCII decimal digits, which Python also accepts, are not
modelled; no input below uses them.) -/
def pyParseInt (s : String) : Option ℤ :=
  match (pyStrip s).data with
  | '+' :: rest => if pyIntBody rest then some (digitsVal rest : ℤ) else none
  | '-' :: rest => if pyIntBody rest then some (-(digitsVal rest : ℤ)) else none
  | rest => if pyIntBody rest then some (digitsVal rest : ℤ) else none

/-- `int(pub_date[:4])`: Python `int` applied to the first four code points;
`none` models the exception caught by the bare `except:`. -/
def pyYear4 (s : String) : Option ℤ := pyParseInt ⟨s.data.take 4⟩

/-- Executable floor of a rational (`Int./` is Euclidean division, which for
the positive denominator is floor division); equals Mathlib's `⌊q⌋`. -/
def floorQ (q : ℚ) : ℤ := q.num / q.den

/-- Executable round-to-nearest (half up); equals Mathlib's `round q`. -/
def roundQ (q : ℚ) : ℤ := floorQ (q + 1/2)

/-- Python `round(q, 3)` modelled over `ℚ`. -/
def round3 (q : ℚ) : ℚ := ((roundQ (q * 1000) : ℤ) : ℚ) / 1000

/-- Python `round(q, 2)` modelled over `ℚ`. -/
def round2 (q : ℚ) : ℚ := ((roundQ (q * 100) : ℤ) : ℚ) / 100

theorem floorQ_eq_floor (q : ℚ) : floorQ q = ⌊q⌋ := (Rat.floor_def).symm

theorem roundQ_eq_round (q : ℚ) : roundQ q = round q := by
  rw [roundQ, floorQ_eq_floor, round_eq]

/-- The signal dictionary consumed by `_calculate_composite_score`.
`none` models an absent key (`.get(k, 0)` then yields `0`); a key present
with value `None` also yields `0` through the `or 0`, and is likewise
modelled by `none`.  `publication_date` absent is modelled by `""`
(`.get('publication_date', '')`). -/
structure SignalRecord where
  citations : Option ℚ
  social_mentions : Option ℚ
  github_stars : Option ℚ
  author_hindex : Option ℚ
  publication_date : String
deriving DecidableEq

/-- The first three weighted terms of the composite score (citation impact,
social proof, authority), before the recency term is added. -/
def baseScore (p : SignalRecord) : ℚ :=
  let citations := p.citations.getD 0
  let citation_score := min (citations / 100) 1
  let social_mentions := p.social_mentions.getD 0
  let github_stars := p.github_stars.getD 0
  let social_score := min ((social_mentions + github_stars / 100) / 50) 1
  let author_hindex := p.author_hindex.getD 0
  let authority_score := min (author_hindex / 50) 1
  citation_score * (4/10) + social_score * (3/10) + authority_score * (2/10)

/-- `EnhancedPaperSearch._calculate_composite_score`.  The recency branch:
for a nonempty date string, `int(pub_date[:4])` is attempted; on success the
term `max(0, 1 - (current_year - pub_year)/10) * 0.1` is added, and on any
exception the bare `except:` adds the flat `0.05`.  The result is
`round(score, 3)`. -/
def _calculate_composite_score (currentYear : ℤ) (p : SignalRecord) : ℚ :=
  let score := baseScore p
  let score :=
    if p.publication_date = "" then score
    else
      match pyYear4 p.publication_date with
      | some py => score + max 0 (1 - ((currentYear : ℚ) - (py : ℚ)) / 10) * (1/10)
      | none => score + 5/100
  round3 score

/-! ## `_validate_and_convert_arxiv_url` (src/search_papers.py, lines 83-118)

The four regex shapes tried against the URL, in order:
1. `arxiv\.org/(?:abs|pdf)/(\d+\.\d+(?:v\d+)?)`
2. `arxiv\.org/(?:abs|pdf)/([a-z-]+/\d+\.\d+(?:v\d+)?)`
3. `/(\d+\.\d+(?:v\d+)?)(?:\.pdf)?$`
4. `/([a-z-]+/\d+\.\d+(?:v\d+)?)(?:\.pdf)?$`

`re.search` semantics: the pattern is tried at each start position left to
right, first matching position wins, and alternatives/quantifiers at a given
position backtrack.  For these particular patterns a greedy maximal-munch
parse is equivalent to backtracking: every `+`-run is of a character class
disjoint from the character the pattern requires next (`\d+` before `\.` or
`v`, `[a-z-]+` before `/`), and after the optional groups the pattern either
ends or demands end-of-string, so no shorter take can succeed where the
maximal one fails. -/

/-- Match a literal character list, returning the remainder. -/
def litMatch : List Char → List Char → Option (List Char)
  | [], cs => some cs
  | _ :: _, [] => none
  | l :: ls, c :: cs => if c = l then litMatch ls cs else none

/-- Parse `\d+\.\d+(?:v\d+)?` by maximal munch; returns the matched
identifier characters and the remainder of the input. -/
def matchIdNum (cs : List Char) : Option (List Char × List Char) :=
  let d1 := cs.takeWhile Char.isDigit
  let r1 := cs.dropWhile Char.isDigit
  if d1.isEmpty then none else
  match r1 with
  | '.' :: r2 =>
    let d2 := r2.takeWhile Char.isDigit
    let r3 := r2.dropWhile Char.isDigit
    if d2.isEmpty then none else
    match r3 with
    | 'v' :: r4 =>
      let d3 := r4.takeWhile Char.isDigit
      if d3.isEmpty then some (d1 ++ '.' :: d2, r3)
      else some (d1 ++ '.' :: d2 ++ 'v' :: d3, r4.dropWhile Char.isDigit)
    | _ => some (d1 ++ '.' :: d2, r3)
  | _ => none

/-- The `[a-z-]` character class. -/
def isLowerDash (c : Char) : Bool := (('a' ≤ c) && (c ≤ 'z')) || c == '-'

/-- Pattern 1 tried at one start position. -/
def tryPat1At (cs : List Char) : Option (List Char) := do
  let r ← litMatch "arxiv.org/".data cs
  let r2 ← (litMatch "abs/".data r) <|> (litMatch "pdf/".data r)
  let (ident, _) ← matchIdNum r2
  pure ident

/-- Pattern 2 tried at one start position. -/
def tryPat2At (cs : List Char) : Option (List Char) := do
  let r ← litMatch "arxiv.org/".data cs
  let r2 ← (litMatch "abs/".data r) <|> (litMatch "pdf/".data r)
  let w := r2.takeWhile isLowerDash
  if w.isEmpty then none else
  match r2.dropWhile isLowerDash with
  | '/' :: r3 => do
    let (ident, _) ← matchIdNum r3
    pure (w ++ '/' :: ident)
  | _ => none

/-- Pattern 3 tried at one start position: a `/`, the numeric identifier, an
optional literal `.pdf`, then end of string. -/
def tryPat3At : List Char → Option (List Char)
  | '/' :: r => do
    let (ident, rest) ← matchIdNum r
    if rest = [] ∨ rest = ".pdf".data then pure ident else none
  | _ => none

/-- Pattern 4 tried at one start position: like pattern 3 with an archive
prefix `[a-z-]+/` inside the captured identifier. -/
def tryPat4At : List Char → Option (List Char)
  | '/' :: r =>
    let w := r.takeWhile isLowerDash
    if w.isEmpty then none else
    match r.dropWhile isLowerDash with
    | '/' :: r2 => do
      let (ident, rest) ← matchIdNum r2
      if rest = [] ∨ rest = ".pdf".data then pure (w ++ '/' :: ident) else none
    | _ => none
  | _ => none

/-- `re.search`: try the position matcher at every start position, left to
right (including the final empty position, where all four patterns fail). -/
def reSearch (f : List Char → Option (List Char)) : List Char → Option (List Char)
  | [] => f []
  | c :: rest =>
    match f (c :: rest) with
    | some r => some r
    | none => reSearch f rest

/-- The `for pattern in arxiv_patterns` loop: first pattern (in the fixed
order) that matches anywhere in the URL wins. -/
def extractArxivId (url : String) : Option String :=
  match reSearch tryPat1At url.data with
  | some ident => some ⟨ident⟩
  | none =>
    match reSearch tryPat2At url.data with
    | some ident => some ⟨ident⟩
    | none =>
      match reSearch tryPat3At url.data with
      | some ident => some ⟨ident⟩
      | none => (reSearch tryPat4At url.data).map (fun l => ⟨l⟩)

/-- `pat` occurs as a contiguous substring (Python's `in` on `str`). -/
def containsSub (pat : List Char) : List Char → Bool
  | [] => decide (pat = [])
  | c :: rest => (litMatch pat (c :: rest)).isSome || containsSub pat rest

/-- `'arxiv.org' in url`. -/
def containsArxiv (url : String) : Bool := containsSub "arxiv.org".data url.data

/-- The three distinct `ValueError`s `_validate_and_convert_arxiv_url`
raises, distinguished by message. -/
inductive UrlError where
  | emptyUrl        -- "Empty URL provided"
  | nonArxivDomain  -- "Non-arXiv domain: ..."
  | noArxivId       -- "Could not extract arXiv ID from: ..."
deriving DecidableEq

/-- `EnhancedPaperSearch._validate_and_convert_arxiv_url`. -/
def _validate_and_convert_arxiv_url (url : String) : Except UrlError String :=
  if url = "" then .error .emptyUrl
  else if containsArxiv url = false then .error .nonArxivDomain
  else
    match extractArxivId url with
    | some ident => .ok ("https://arxiv.org/pdf/" ++ ident)
    | none => .error .noArxivId

/-! ## `SearchedPaper` and the ranking step (src/search_papers.py) -/

/-- The `SearchedPaper` pydantic model: exactly the four declared fields.
There is no `composite_score` field. -/
structure SearchedPaper where
  url : String
  title : String
  publication_date : String
  citation_number : ℤ
deriving DecidableEq

/-- Python `getattr`-style lookup of `composite_score` on a `SearchedPaper`.
The pydantic model declares no such field and no code path ever sets one
(`_enhance_paper_data`, which would compute it into a plain dict, is never
called from `search_papers`, and even there `SearchedPaper.model_validate`
would drop the extra key), so `hasattr(x, 'composite_score')` is `False` for
every paper reaching the sort. -/
def compositeScoreAttr (_ : SearchedPaper) : Option ℚ := none

/-- The sort key of
`validated_papers.sort(key=lambda x: x.composite_score if hasattr(x, 'composite_score') else 0, reverse=True)`. -/
def sortKey (p : SearchedPaper) : ℚ := (compositeScoreAttr p).getD 0

/-- Stable descending insertion: the new element goes before the first
existing element whose key is not greater, so among equal keys earlier list
elements stay first.  For a total preorder the stable sorted permutation is
unique, so this models Python's stable `list.sort(key=..., reverse=True)`. -/
def insertDesc (a : SearchedPaper) : List SearchedPaper → List SearchedPaper
  | [] => [a]
  | b :: bs => if sortKey a < sortKey b then b :: insertDesc a bs else a :: b :: bs

/-- Stable sort, descending by `sortKey`. -/
def sortDesc : List SearchedPaper → List SearchedPaper
  | [] => []
  | a :: l => insertDesc a (sortDesc l)

/-- The Ranking step of the discovery loop (line 205 of search_papers.py). -/
def rankingStep (l : List SearchedPaper) : List SearchedPaper := sortDesc l

/-- The signal dict obtained from `paper.model_dump()`: its keys are `url`,
`title`, `publication_date`, `citation_number`, so the scorer's lookups of
`citations`, `social_mentions`, `github_stars` and `author_hindex` all miss
and default to `0`; only `publication_date` is found. -/
def dumpSignals (p : SearchedPaper) : SignalRecord :=
  { citations := none, social_mentions := none, github_stars := none,
    author_hindex := none, publication_date := p.publication_date }

/-- The composite score `_enhance_paper_data` would associate to a paper:
the scorer applied to the paper's `model_dump()`. -/
def paperCompositeScore (currentYear : ℤ) (p : SearchedPaper) : ℚ :=
  _calculate_composite_score currentYear (dumpSignals p)

/-! ## The discovery loop `search_papers` (src/search_papers.py, lines 120-222)

The backend (`self.client.chat.completions.create`) is modelled as an oracle
mapping the index of the call to a response.  A well-typed candidate record
of the parsed `papers` array carries the four expected fields; an absent
`url` key is modelled by `""` (`paper_data.get('url', '')`), which the
validator rejects as an empty URL.  The per-candidate `sleep(0.5)` pacing
and the domain-filter defaulting do not affect the returned value and are
not modelled. -/

/-- A raw candidate from the parsed `papers` array. -/
structure RawPaper where
  url : String
  title : String
  publication_date : String
  citation_number : ℤ
deriving DecidableEq

/-- One backend response.  The non-`ok` constructors are the failure shapes
checked in order by the source: no `choices`, empty message content, a body
`json.loads` rejects, a parsed body without a `papers` key, and the backend
call itself raising. -/
inductive BackendResponse where
  | noChoices
  | emptyContent
  | badJson
  | missingPapersKey
  | raised (msg : String)
  | ok (papers : List RawPaper)

/-- The error with which `search_papers` aborts, mirroring the `ValueError`s
raised at lines 175, 180, 186, 218 and the bare re-`raise` at line 221. -/
inductive SearchError where
  | noResponse
  | emptyContent
  | parseFailed
  | missingPapersKey
  | backendRaised (msg : String)
deriving DecidableEq

/-- The Validating step for one candidate: canonicalize its URL; a
`ValueError` (any `UrlError`) drops the candidate and continues. -/
def validatePaper (r : RawPaper) : Option SearchedPaper :=
  match _validate_and_convert_arxiv_url r.url with
  | .ok u => some { url := u, title := r.title,
                    publication_date := r.publication_date,
                    citation_number := r.citation_number }
  | .error _ => none

/-- The Validating step for a whole batch (the `for paper_data in
response_dict['papers']` loop). -/
def validateBatch (rs : List RawPaper) : List SearchedPaper :=
  rs.filterMap validatePaper

/-- The Merging step (lines 209-212): walk the ranked batch in order and
accept a paper only if its canonical URL is not yet seen, marking it seen
immediately.  Returns the grown final list and seen set (the Python `set` is
modelled as the list of its elements). -/
def mergePapers : List SearchedPaper → List String → List SearchedPaper →
    List SearchedPaper × List String
  | finalPapers, seen, [] => (finalPapers, seen)
  | finalPapers, seen, p :: ps =>
    if p.url ∈ seen then mergePapers finalPapers seen ps
    else mergePapers (finalPapers ++ [p]) (p.url :: seen) ps

/-- The `while len(final_papers) < max_results and exhausted_cycles > 0`
loop.  `cycles` is the remaining-attempts counter (initially 5), `callIdx`
counts backend calls already made.  Note that the merge appends every fresh
paper of the batch: the source's `# Limit results` comment is followed by no
truncation. -/
def searchGo (oracle : ℕ → BackendResponse) (maxResults : ℕ) :
    ℕ → ℕ → List SearchedPaper → List String →
    Except SearchError (List SearchedPaper × ℕ)
  | 0, callIdx, finalPapers, _ => .ok (finalPapers, callIdx)
  | cycles + 1, callIdx, finalPapers, seen =>
    if finalPapers.length < maxResults then
      match oracle callIdx with
      | .noChoices => .error .noResponse
      | .emptyContent => .error .emptyContent
      | .badJson => .error .parseFailed
      | .missingPapersKey => .error .missingPapersKey
      | .raised msg => .error (.backendRaised msg)
      | .ok batch =>
        let ranked := rankingStep (validateBatch batch)
        let merged := mergePapers finalPapers seen ranked
        searchGo oracle maxResults cycles (callIdx + 1) merged.1 merged.2
    else .ok (finalPapers, callIdx)

/-- `EnhancedPaperSearch.search_papers`: empty accumulator, empty seen set,
5 attempts.  On success it also reports how many backend calls were made. -/
def search_papers (oracle : ℕ → BackendResponse) (maxResults : ℕ) :
    Except SearchError (List SearchedPaper × ℕ) :=
  searchGo oracle maxResults 5 0 [] []

/-! ## `json.loads` and `_validate_html_response`
(src/summarize_papers.py, lines 85-107)

`json.loads` with default arguments accepts the JSON grammar (with the
CPython extensions `NaN`, `Infinity`, `-Infinity`), insignificant whitespace
restricted to space, tab, newline, carriage return, and rejects trailing
garbage.  Numbers are kept as their raw lexemes (no statement below inspects
a numeric value); `\uXXXX` escapes are decoded per code unit (surrogate-pair
recombination is not modelled; no input below uses it).  The parser is
fuel-indexed; fuel `2 * length + 4` dominates the recursion depth, and the
only general fact used about it below (a string starting with `<` never
parses) holds for every fuel. -/

/-- A parsed JSON value. -/
inductive JVal where
  | jnull
  | jbool (b : Bool)
  | jnum (raw : String)
  | jstr (s : String)
  | jarr (items : List JVal)
  | jobj (fields : List (String × JVal))

/-- JSON insignificant whitespace. -/
def jIsWs (c : Char) : Bool := c == ' ' || c == '\t' || c == '\n' || c == '\r'

/-- Skip JSON whitespace. -/
def skipJWs (cs : List Char) : List Char := cs.dropWhile jIsWs

/-- Hexadecimal digit value. -/
def hexVal (c : Char) : ℕ :=
  if c.isDigit then c.toNat - 48
  else if 'a' ≤ c ∧ c ≤ 'f' then c.toNat - 87
  else c.toNat - 55

/-- Hexadecimal digit test. -/
def isHex (c : Char) : Bool :=
  c.isDigit || (('a' ≤ c) && (c ≤ 'f')) || (('A' ≤ c) && (c ≤ 'F'))

/-- Body of a JSON string, after the opening quote: characters up to the
closing quote, with the standard escapes; raw control characters (below
U+0020) are rejected as in strict-mode `json.loads`. -/
def parseJStrBody : List Char → Option (List Char × List Char)
  | [] => none
  | '"' :: rest => some ([], rest)
  | '\\' :: rest =>
    match rest with
    | '"' :: r => (parseJStrBody r).map (fun p => ('"' :: p.1, p.2))
    | '\\' :: r => (parseJStrBody r).map (fun p => ('\\' :: p.1, p.2))
    | '/' :: r => (parseJStrBody r).map (fun p => ('/' :: p.1, p.2))
    | 'b' :: r => (parseJStrBody r).map (fun p => ('\x08' :: p.1, p.2))
    | 'f' :: r => (parseJStrBody r).map (fun p => ('\x0c' :: p.1, p.2))
    | 'n' :: r => (parseJStrBody r).map (fun p => ('\n' :: p.1, p.2))
    | 'r' :: r => (parseJStrBody r).map (fun p => ('\r' :: p.1, p.2))
    | 't' :: r => (parseJStrBody r).map (fun p => ('\t' :: p.1, p.2))
    | 'u' :: h1 :: h2 :: h3 :: h4 :: r =>
      if isHex h1 && isHex h2 && isHex h3 && isHex h4 then
        (parseJStrBody r).map (fun p =>
          (Char.ofNat (((hexVal h1 * 16 + hexVal h2) * 16 + hexVal h3) * 16 + hexVal h4) :: p.1, p.2))
      else none
    | _ => none
  | c :: rest =>
    if c.toNat < 32 then none
    else (parseJStrBody rest).map (fun p => (c :: p.1, p.2))

/-- JSON number grammar `-? (0 | [1-9][0-9]*) (\.[0-9]+)? ([eE][+-]?[0-9]+)?`,
returned as its raw lexeme. -/
def parseJNum (cs : List Char) : Option (List Char × List Char) :=
  let (sign, r0) :=
    match cs with
    | '-' :: r => (['-'], r)
    | _ => (([] : List Char), cs)
  match r0 with
  | [] => none
  | c :: rest =>
    if !c.isDigit then none
    else
      let (ipart, r1) :=
        if c = '0' then (['0'], rest)
        else (c :: rest.takeWhile Char.isDigit, rest.dropWhile Char.isDigit)
      let (fpart, r2) :=
        match r1 with
        | '.' :: r =>
          let ds := r.takeWhile Char.isDigit
          if ds.isEmpty then (none, r1) else (some ('.' :: ds), r.dropWhile Char.isDigit)
        | _ => (none, r1)
      match fpart, r2 with
      | none, '.' :: _ => none
      | _, _ =>
        let (epart, r3) :=
          match r2 with
          | e :: r =>
            if e = 'e' ∨ e = 'E' then
              let (es, r') :=
                match r with
                | s :: r' => if s = '+' ∨ s = '-' then ([e, s], r') else ([e], r)
                | [] => ([e], r)
              let ds := r'.takeWhile Char.isDigit
              if ds.isEmpty then (none, r2) else (some (es ++ ds), r'.dropWhile Char.isDigit)
            else (none, r2)
          | [] => (none, r2)
        match epart, r3 with
        | none, e :: _ =>
          if e = 'e' ∨ e = 'E' then none
          else some (sign ++ ipart ++ (fpart.getD []) , r3)
        | _, _ => some (sign ++ ipart ++ (fpart.getD []) ++ (epart.getD []), r3)

mutual

/-- Parse one JSON value (after skipping leading whitespace). -/
def parseJVal : ℕ → List Char → Option (JVal × List Char)
  | 0, _ => none
  | fuel + 1, cs =>
    match skipJWs cs with
    | [] => none
    | c :: rest =>
      if c = '\x7b' then
        (parseJFields fuel true rest).map (fun p => (JVal.jobj p.1, p.2))
      else if c = '[' then
        (parseJItems fuel true rest).map (fun p => (JVal.jarr p.1, p.2))
      else if c = '"' then
        (parseJStrBody rest).map (fun p => (JVal.jstr ⟨p.1⟩, p.2))
      else if c = 't' then
        (litMatch "rue".data rest).map (fun r => (JVal.jbool true, r))
      else if c = 'f' then
        (litMatch "alse".data rest).map (fun r => (JVal.jbool false, r))
      else if c = 'n' then
        (litMatch "ull".data rest).map (fun r => (JVal.jnull, r))
      else if c = 'N' then
        (litMatch "aN".data rest).map (fun r => (JVal.jnum "NaN", r))
      else if c = 'I' then
        (litMatch "nfinity".data rest).map (fun r => (JVal.jnum "Infinity", r))
      else if c = '-' ∧ rest.head? = some 'I' then
        (litMatch "Infinity".data rest.tail).map (fun r => (JVal.jnum "-Infinity", r))
      else if c = '-' ∨ c.isDigit then
        (parseJNum (c :: rest)).map (fun p => (JVal.jnum ⟨p.1⟩, p.2))
      else none

/-- Parse the fields of a JSON object, after the opening brace.  `allowEnd`
is true only before the first field, so `\x7b"a": 1,\x7d` is rejected. -/
def parseJFields : ℕ → Bool → List Char → Option (List (String × JVal) × List Char)
  | 0, _, _ => none
  | fuel + 1, allowEnd, cs =>
    match skipJWs cs with
    | '\x7d' :: rest => if allowEnd then some ([], rest) else none
    | '"' :: rest =>
      match parseJStrBody rest with
      | none => none
      | some (k, r1) =>
        match skipJWs r1 with
        | ':' :: r2 =>
          match parseJVal fuel r2 with
          | none => none
          | some (v, r3) =>
            match skipJWs r3 with
            | ',' :: r4 => (parseJFields fuel false r4).map (fun p => ((⟨k⟩, v) :: p.1, p.2))
            | '\x7d' :: r4 => some ([(⟨k⟩, v)], r4)
            | _ => none
        | _ => none
    | _ => none

/-- Parse the items of a JSON array, after the opening bracket. -/
def parseJItems : ℕ → Bool → List Char → Option (List JVal × List Char)
  | 0, _, _ => none
  | fuel + 1, allowEnd, cs =>
    match skipJWs cs with
    | ']' :: rest => if allowEnd then some ([], rest) else none
    | cs' =>
      if allowEnd = false ∧ cs'.head? = some ']' then none
      else
        match parseJVal fuel cs' with
        | none => none
        | some (v, r1) =>
          match skipJWs r1 with
          | ',' :: r2 => (parseJItems fuel false r2).map (fun p => (v :: p.1, p.2))
          | ']' :: r2 => some ([v], r2)
          | _ => none

end

/-- `json.loads`: parse one value, then require only trailing whitespace. -/
def pyJsonLoads (s : String) : Option JVal :=
  match parseJVal (2 * s.data.length + 4) s.data with
  | some (v, rest) => if skipJWs rest = [] then some v else none
  | none => none

/-- Python dict built from JSON object fields keeps the last occurrence of a
duplicated key; `d.get(k, default)`. -/
def jObjGet (fields : List (String × JVal)) (k : String) : Option JVal :=
  ((fields.filter (fun f => f.1 = k)).getLast?).map (fun f => f.2)

/-- Does the cleaned text begin with `<` (`cleaned_text.startswith('<')`)? -/
def startsLt (s : String) : Bool := s.data.head? == some '<'

/-- The minimal container of line 93. -/
def wrapDiv (t : String) : String :=
  ⟨"<div class=\"paper-summary\">".data ++ t.data ++ "</div>".data⟩

/-- The result of `_validate_html_response`. -/
structure HtmlValidation where
  html_summary : String
  metadata : JVal

/-- `PaperSummarizer._validate_html_response`.  Faithful to the source's
order of operations: the text is stripped, wrapped in the container when it
does not start with `<`, and only then offered to `json.loads`.  `none`
models an exception escaping the function: in the parsed branch,
`json_data.get('summary', ...)` raises `AttributeError` when the parsed
value is not an object; a parsed object whose `summary` value is not a
string would flow through Python's dynamic typing, which this model's
`String`-typed payload cannot represent, and is also mapped to `none` (both
situations are unreachable: a string that parses as JSON cannot start with
`<`, and the wrapped text always does). -/
def _validate_html_response (text : String) : Option HtmlValidation :=
  let cleaned := pyStrip text
  let cleaned := if startsLt cleaned then cleaned else wrapDiv cleaned
  match pyJsonLoads cleaned with
  | some (JVal.jobj fields) =>
    match jObjGet fields "summary" with
    | some (JVal.jstr s) => some { html_summary := s, metadata := JVal.jobj fields }
    | none => some { html_summary := cleaned, metadata := JVal.jobj fields }
    | some _ => none
  | some _ => none
  | none => some { html_summary := cleaned, metadata := JVal.jobj [("format", JVal.jstr "html")] }

/-! ## The summarization worker and pipeline
(src/summarize_papers.py, lines 22-242)

Real time, HTTP and the Generation Service are modelled by a per-paper
environment: the fetch outcome (success, an `httpx.HTTPError`, or any other
exception raised while fetching), the generation outcome (a response text,
or an exception — which also covers a `None` response text, whose
`.strip()` would raise), whether the filesystem write fails, and the two
clock readings `time.time()` takes at entry and at return. -/

/-- `SummaryResult` (the dataclass at lines 22-30). -/
structure SummaryResult where
  paper_url : String
  title : String
  html_summary : String
  status : String
  processing_time : ℚ
  error : Option String := none
  metadata : Option JVal := none

/-- Outcome of the `httpx` fetch of the paper's document. -/
inductive FetchOutcome where
  | ok
  | httpError (msg : String)
  | otherError (msg : String)

/-- Outcome of the Generation Service call. -/
inductive GenOutcome where
  | ok (text : String)
  | raised (msg : String)

/-- The per-paper environment of one `_summarize_single_paper` run. -/
structure WorkerEnv where
  fetch : FetchOutcome
  gen : GenOutcome
  saveFails : Bool
  tStart : ℚ
  tEnd : ℚ

/-- A paper as the worker consumes it: `paper.url` is accessed directly,
`paper.title` through `getattr` with a default. -/
structure WPaper where
  url : String
  title : Option String

/-- `PaperSummarizer._save_html_summary`: on any exception while writing, the
error is logged and `""` is returned; the result never propagates an
exception.  Returns the path string on success. -/
def _save_html_summary (saveFails : Bool) (filename : String) : String :=
  if saveFails then "" else "./summaries/" ++ filename

/-- `PaperSummarizer._summarize_single_paper`.  Every failure is converted
into a `SummaryResult`: an `httpx.HTTPError` into `fetch_error`, any other
exception into `error`; the elapsed time is recorded on every path.  The
unreachable case in which `_validate_html_response` itself raises (see its
doc comment) is mapped to the generic handler like any other exception.
The saved path is computed and discarded, exactly as in the source: the
returned record does not depend on the persistence outcome. -/
def _summarize_single_paper (env : WorkerEnv) (paper : WPaper)
    (level language : String) : SummaryResult :=
  let elapsed := env.tEnd - env.tStart
  let rTitle := paper.title.getD "Unknown"
  match env.fetch with
  | .httpError m =>
    { paper_url := paper.url, title := rTitle, html_summary := "",
      status := "fetch_error", processing_time := elapsed,
      error := some ("HTTP error: " ++ m) }
  | .otherError m =>
    { paper_url := paper.url, title := rTitle, html_summary := "",
      status := "error", processing_time := elapsed,
      error := some ("Processing error: " ++ m) }
  | .ok =>
    match env.gen with
    | .raised m =>
      { paper_url := paper.url, title := rTitle, html_summary := "",
        status := "error", processing_time := elapsed,
        error := some ("Processing error: " ++ m) }
    | .ok text =>
      match _validate_html_response text with
      | none =>
        { paper_url := paper.url, title := rTitle, html_summary := "",
          status := "error", processing_time := elapsed,
          error := some ("Processing error: AttributeError") }
      | some v =>
        let paperTitle := paper.title.getD "Unknown_Title"
        let _saved := _save_html_summary env.saveFails
          (_generate_output_filename paperTitle language level)
        { paper_url := paper.url, title := rTitle,
          html_summary := v.html_summary, status := "success",
          processing_time := elapsed, metadata := some v.metadata }

/-- Python truthiness of a parsed JSON value (used for
`if result.metadata:`); the only reachable metadata is a nonempty object. -/
def jTruthy : JVal → Bool
  | .jnull => false
  | .jbool b => b
  | .jnum raw => !(raw == "0" || raw == "-0" || raw == "0.0" || raw == "-0.0")
  | .jstr s => !(s = "")
  | .jarr items => !items.isEmpty
  | .jobj fields => !fields.isEmpty

/-- The per-result dictionary built by `summarize_papers` (lines 216-233):
the `error` key is present only when `result.error` is truthy (a nonempty
string), the `metadata` key only when `result.metadata` is truthy. -/
structure SummaryDict where
  paper_url : String
  title : String
  html_summary : String
  status : String
  processing_time : ℚ
  language : String
  audience_level : String
  error : Option String
  metadata : Option JVal

/-- Conversion of one worker result to its reporting dictionary. -/
def toSummaryDict (level language : String) (r : SummaryResult) : SummaryDict :=
  { paper_url := r.paper_url, title := r.title,
    html_summary := r.html_summary, status := r.status,
    processing_time := round2 r.processing_time,
    language := language, audience_level := level,
    error := match r.error with
      | some e => if e = "" then none else some e
      | none => none,
    metadata := match r.metadata with
      | some v => if jTruthy v then some v else none
      | none => none }

/-- `"success" in result.status` (Python substring containment). -/
def statusHasSuccess (r : SummaryResult) : Bool := containsSub "success".data r.status.data

/-- `PaperSummarizer.summarize_papers`.  Each input pairs a paper with its
environment.  In parallel mode (requested and more than one paper) the
futures are submitted in list order and `future.result()` is collected in
that same submission order; sequential mode walks the list in order with a
pacing sleep (untranslated).  Both therefore produce the worker results in
input order.  The success count, which the source computes for its summary
log line, is returned alongside the dictionaries to make it observable. -/
def summarize_papers (inputs : List (WorkerEnv × WPaper)) (level : String)
    (language : String) (parallel : Bool) : List SummaryDict × ℕ :=
  let results :=
    if parallel = true ∧ 1 < inputs.length then
      inputs.map (fun pe => _summarize_single_paper pe.1 pe.2 level language)
    else
      inputs.map (fun pe => _summarize_single_paper pe.1 pe.2 level language)
  let dicts := results.map (toSummaryDict level language)
  let successCount := (results.filter statusHasSuccess).length
  (dicts, successCount)

/-! ## Helper lemmas -/

theorem round3_nonneg {q : ℚ} (h : 0 ≤ q) : 0 ≤ round3 q := by
  rw [round3, roundQ_eq_round, round_eq]
  have h1 : (0:ℤ) ≤ ⌊q * 1000 + 1/2⌋ := Int.floor_nonneg.mpr (by linarith)
  exact div_nonneg (by exact_mod_cast h1) (by norm_num)

theorem round3_le_one {q : ℚ} (h : q ≤ 1) : round3 q ≤ 1 := by
  rw [round3, roundQ_eq_round, round_eq]
  have h1 : ⌊q * 1000 + 1/2⌋ ≤ 1000 := by
    calc ⌊q * 1000 + 1/2⌋ ≤ ⌊(1000 : ℚ) + 1/2⌋ := Int.floor_mono (by linarith)
    _ = 1000 := by norm_num
  rw [div_le_one (by norm_num)]
  exact_mod_cast h1

theorem baseScore_nonneg (p : SignalRecord) (hc : 0 ≤ p.citations.getD 0)
    (hs : 0 ≤ p.social_mentions.getD 0) (hg : 0 ≤ p.github_stars.getD 0)
    (hh : 0 ≤ p.author_hindex.getD 0) : 0 ≤ baseScore p := by
  simp only [baseScore]
  have c1 : (0:ℚ) ≤ min (p.citations.getD 0 / 100) 1 :=
    le_min (div_nonneg hc (by norm_num)) (by norm_num)
  have s1 : (0:ℚ) ≤ min ((p.social_mentions.getD 0 + p.github_stars.getD 0 / 100) / 50) 1 :=
    le_min (div_nonneg (add_nonneg hs (div_nonneg hg (by norm_num))) (by norm_num)) (by norm_num)
  have a1 : (0:ℚ) ≤ min (p.author_hindex.getD 0 / 50) 1 :=
    le_min (div_nonneg hh (by norm_num)) (by norm_num)
  linarith

theorem baseScore_le (p : SignalRecord) : baseScore p ≤ 9/10 := by
  simp only [baseScore]
  have c2 : min (p.citations.getD 0 / 100) 1 ≤ 1 := min_le_right _ _
  have s2 : min ((p.social_mentions.getD 0 + p.github_stars.getD 0 / 100) / 50) 1 ≤ 1 :=
    min_le_right _ _
  have a2 : min (p.author_hindex.getD 0 / 50) 1 ≤ 1 := min_le_right _ _
  linarith

/-- With the sort key constant, the stable insertion puts each element back
in front of its tail. -/
theorem insertDesc_eq_cons (a : SearchedPaper) (l : List SearchedPaper) :
    insertDesc a l = a :: l := by
  cases l with
  | nil => rfl
  | cons b bs => simp [insertDesc, sortKey, compositeScoreAttr]

theorem sortDesc_id : ∀ l : List SearchedPaper, sortDesc l = l
  | [] => rfl
  | a :: l => by rw [sortDesc, sortDesc_id l, insertDesc_eq_cons]

/-! ## C1 — the Ranking step does not order by composite score

The spec's Ranking state claims the surviving candidates are sorted by
composite score, descending.  In the source, the sort key falls back to `0`
for every paper because no `SearchedPaper` ever carries a `composite_score`
attribute (`_enhance_paper_data`, the only place that computes one, is never
called, and the source's own comment at line 204 — `# Sort by composite
score (descending)` — contradicts what the line below it can do).  The sort
is therefore the identity, and a batch in which a later paper has a strictly
larger composite score than an earlier one is passed to Merging unchanged,
i.e. not non-increasing in composite score. -/

/-- C1: the Ranking step is the identity on every batch, and on the concrete
batch `[Old, New]` — whose composite scores (as `_calculate_composite_score`
yields on the papers' `model_dump()` at current year 2025) are `0` and `0.1`
— the list reaching Merging is therefore strictly increasing, not
non-increasing, in composite score. -/
theorem ranking_ignores_composite_score :
    (∀ l : List SearchedPaper, rankingStep l = l) ∧
    rankingStep [⟨"https://arxiv.org/pdf/1900.00001", "Old", "1900-01-01", 3⟩,
                 ⟨"https://arxiv.org/pdf/2025.00002", "New", "2025-01-01", 3⟩] =
      [⟨"https://arxiv.org/pdf/1900.00001", "Old", "1900-01-01", 3⟩,
       ⟨"https://arxiv.org/pdf/2025.00002", "New", "2025-01-01", 3⟩] ∧
    paperCompositeScore 2025 ⟨"https://arxiv.org/pdf/1900.00001", "Old", "1900-01-01", 3⟩ <
      paperCompositeScore 2025 ⟨"https://arxiv.org/pdf/2025.00002", "New", "2025-01-01", 3⟩ := by
  refine ⟨sortDesc_id, sortDesc_id _, ?_⟩
  have h1 : pyYear4 "1900-01-01" = some 1900 := rfl
  have h2 : pyYear4 "2025-01-01" = some 2025 := rfl
  simp only [paperCompositeScore, dumpSignals, _calculate_composite_score, baseScore, round3,
    h1, h2, Option.getD, if_neg (show ¬ ("1900-01-01" : String) = "" by decide),
    if_neg (show ¬ ("2025-01-01" : String) = "" by decide)]
  norm_num [roundQ_eq_round, round_eq, min_def, max_def]

/-! ## C2 — the Merging step does not enforce the quota

The loop guard stops a *new* iteration once `len(final_papers) >=
max_results`, but within an iteration the merge loop appends every fresh
validated paper of the batch; the source's `# Limit results` comment (line
207) is followed by no truncation.  With `maxResults = 3` and two backend
batches of 2 and then 3 unique valid candidates (each batch within the
requested per-call maximum), the call returns 5 papers, not exactly 3. -/

/-- The failing input of C2: batch of 2 fresh papers, then batch of 3. -/
def c2Oracle : ℕ → BackendResponse
  | 0 => .ok [⟨"https://arxiv.org/abs/2401.00001", "P1", "2024-01-01", 10⟩,
              ⟨"https://arxiv.org/abs/2401.00002", "P2", "2024-01-02", 20⟩]
  | 1 => .ok [⟨"https://arxiv.org/abs/2401.00003", "P3", "2024-01-03", 30⟩,
              ⟨"https://arxiv.org/abs/2401.00004", "P4", "2024-01-04", 40⟩,
              ⟨"https://arxiv.org/abs/2401.00005", "P5", "2024-01-05", 50⟩]
  | _ => .ok []

/-- C2: on `c2Oracle` with `maxResults = 3` the discovery call terminates
without error after 2 backend calls (within the budget of 5), but the final
list has 5 papers — more than `maxResults` — refuting "exactly N". -/
theorem search_overshoots_max_results :
    (search_papers c2Oracle 3).map (fun r => (r.1.length, r.2)) = .ok (5, 2) ∧
    (5 : ℕ) ≠ 3 ∧ (2 : ℕ) ≤ 5 := by
  exact ⟨rfl, by decide, by decide⟩

/-! ## C4 — the fallback recency credit is 0.05, not 0.005

When the 4-digit-year parse fails on a nonempty date, line 67 executes
`score += 0.05`: the flat credit is added directly to the weighted sum, not
multiplied by the 0.10 recency weight as the spec states. -/

/-- C4 counterexample: with all other signals absent and the unparsable date
`"abcd"`, the whole composite score is exactly the fallback contribution:
`0.05`, not the claimed `0.05 * 0.10 = 0.005`. -/
theorem fallback_recency_counterexample :
    _calculate_composite_score 2025 ⟨none, none, none, none, "abcd"⟩ = 5/100 ∧
    _calculate_composite_score 2025 ⟨none, none, none, none, "abcd"⟩ ≠ 5/1000 := by
  have heq : _calculate_composite_score 2025 ⟨none, none, none, none, "abcd"⟩ = 5/100 := by
    have h : pyYear4 "abcd" = none := rfl
    simp only [_calculate_composite_score, baseScore, round3, h, Option.getD,
      if_neg (show ¬ ("abcd" : String) = "" by decide)]
    norm_num [roundQ_eq_round, round_eq, min_def]
  exact ⟨heq, by rw [heq]; norm_num⟩

/-- C4 (amended): for every nonempty publication-date string on which the
year parse fails, the scorer adds the flat fallback credit `0.05` to the
weighted sum (equivalent to a recency sub-score of `0.5` at weight `0.10`),
rather than the parsed recency term. -/
theorem fallback_recency_flat_credit (cy : ℤ) (p : SignalRecord)
    (h1 : p.publication_date ≠ "") (h2 : pyYear4 p.publication_date = none) :
    _calculate_composite_score cy p = round3 (baseScore p + 5/100) := by
  simp only [_calculate_composite_score, if_neg h1, h2]

/-- Witness for C4's amended theorem at the concrete date `"n/a"`. -/
theorem fallback_recency_flat_credit_w :
    _calculate_composite_score 2025 ⟨none, none, none, none, "n/a"⟩ =
      round3 (baseScore ⟨none, none, none, none, "n/a"⟩ + 5/100) :=
  fallback_recency_flat_credit 2025 ⟨none, none, none, none, "n/a"⟩ (by decide) rfl

/-! ## C5 — the composite score is not confined to [0,1]

Three of the four sub-scores are only *capped above* by their `min(..., 1.0)`
(a negative signal value passes through un-clamped), and the recency
sub-score is only *floored below* by its `max(0, ...)` (a publication year
in the future makes it arbitrarily large).  The claimed both-sided clamping
does not exist in the code, and the score escapes `[0,1]` in both
directions. -/

/-- C5 counterexample: a record whose only signal is the future publication
date `"9999-12-31"` scores `79.84 > 1` at current year 2025, and a record
whose only signal is `citations = -1000` scores `-4 < 0`. -/
theorem composite_score_escapes_unit_interval :
    _calculate_composite_score 2025 ⟨none, none, none, none, "9999-12-31"⟩ = 1996/25 ∧
    (1 : ℚ) < _calculate_composite_score 2025 ⟨none, none, none, none, "9999-12-31"⟩ ∧
    _calculate_composite_score 2025 ⟨some (-1000), none, none, none, ""⟩ < 0 := by
  have h : pyYear4 "9999-12-31" = some 9999 := rfl
  have heq : _calculate_composite_score 2025 ⟨none, none, none, none, "9999-12-31"⟩ = 1996/25 := by
    simp only [_calculate_composite_score, baseScore, round3, h, Option.getD,
      if_neg (show ¬ ("9999-12-31" : String) = "" by decide)]
    norm_num [roundQ_eq_round, round_eq, min_def, max_def]
  refine ⟨heq, by rw [heq]; norm_num, ?_⟩
  simp only [_calculate_composite_score, baseScore, round3, Option.getD]
  norm_num [roundQ_eq_round, round_eq, min_def]

/-- C5 (amended): under the hypotheses the code actually relies on —
non-negative citation/social/star/h-index values and a publication year that,
when it parses at all, does not exceed the current year — every sub-score
term lies in `[0,1]` after its one-sided clamp and the rounded weighted sum
lies in `[0,1]`. -/
theorem composite_score_in_unit_interval (cy : ℤ) (p : SignalRecord)
    (hc : 0 ≤ p.citations.getD 0) (hs : 0 ≤ p.social_mentions.getD 0)
    (hg : 0 ≤ p.github_stars.getD 0) (hh : 0 ≤ p.author_hindex.getD 0)
    (hy : ∀ py, pyYear4 p.publication_date = some py → py ≤ cy) :
    0 ≤ _calculate_composite_score cy p ∧ _calculate_composite_score cy p ≤ 1 := by
  have hb0 := baseScore_nonneg p hc hs hg hh
  have hb1 := baseScore_le p
  simp only [_calculate_composite_score]
  split_ifs with hemp
  · exact ⟨round3_nonneg hb0, round3_le_one (by linarith)⟩
  · rcases hpy : pyYear4 p.publication_date with _ | py
    · simp only [hpy]
      exact ⟨round3_nonneg (by linarith), round3_le_one (by linarith)⟩
    · simp only [hpy]
      have h1 : (0:ℚ) ≤ max 0 (1 - ((cy:ℚ) - (py:ℚ)) / 10) := le_max_left _ _
      have h2 : max (0:ℚ) (1 - ((cy:ℚ) - (py:ℚ)) / 10) ≤ 1 := by
        apply max_le (by norm_num)
        have hle : (py:ℚ) ≤ (cy:ℚ) := by exact_mod_cast hy py hpy
        linarith
      exact ⟨round3_nonneg (by linarith), round3_le_one (by linarith)⟩

/-- Witness for C5's amended theorem at a fully populated record. -/
theorem composite_score_in_unit_interval_w :
    0 ≤ _calculate_composite_score 2025 ⟨some 50, some 10, some 200, some 30, "2020-05-05"⟩ ∧
    _calculate_composite_score 2025 ⟨some 50, some 10, some 200, some 30, "2020-05-05"⟩ ≤ 1 :=
  composite_score_in_unit_interval 2025 ⟨some 50, some 10, some 200, some 30, "2020-05-05"⟩
    (by norm_num [Option.getD]) (by norm_num [Option.getD])
    (by norm_num [Option.getD]) (by norm_num [Option.getD])
    (fun py h => by
      rw [show pyYear4 "2020-05-05" = some 2020 from rfl] at h
      injection h with h2
      omega)

/-! ## C6 — canonicalization errors and the canonical form

The code distinguishes a third failure, `"Empty URL provided"`, raised
before the domain check; the empty string is a URL not belonging to the
accepted domain, yet it does not fail with the non-arXiv-domain error the
claim prescribes for every such input.  For every nonempty input the claim's
case analysis is exact. -/

/-- C6 counterexample: the empty string does not contain `arxiv.org`, yet
`canonicalize` fails with the distinct empty-URL error, not `InvalidSource`. -/
theorem canonicalize_empty_url_error :
    containsArxiv "" = false ∧
    _validate_and_convert_arxiv_url "" = .error .emptyUrl ∧
    UrlError.emptyUrl ≠ UrlError.nonArxivDomain :=
  ⟨rfl, rfl, by decide⟩

/-- C6 (amended): a *nonempty* URL without the accepted domain fails with
`InvalidSource` (the empty string fails with a distinct empty-URL error); an
accepted-domain URL with no extractable identifier fails with
`UnresolvableIdentifier`; on success the canonical direct-document URL is
returned with the extracted identifier appended verbatim and no extension;
in particular the abstract-page example canonicalizes as claimed, with a
version suffix preserved. -/
theorem canonicalize_amended :
    (∀ url : String, url ≠ "" → containsArxiv url = false →
      _validate_and_convert_arxiv_url url = .error .nonArxivDomain) ∧
    (∀ url : String, containsArxiv url = true → extractArxivId url = none →
      _validate_and_convert_arxiv_url url = .error .noArxivId) ∧
    (∀ url ident, containsArxiv url = true → extractArxivId url = some ident →
      _validate_and_convert_arxiv_url url = .ok ("https://arxiv.org/pdf/" ++ ident)) ∧
    _validate_and_convert_arxiv_url "https://arxiv.org/abs/2401.12345" =
      .ok "https://arxiv.org/pdf/2401.12345" ∧
    _validate_and_convert_arxiv_url "https://arxiv.org/abs/2401.12345v2" =
      .ok "https://arxiv.org/pdf/2401.12345v2" := by
  have hne : ∀ url : String, containsArxiv url = true → url ≠ "" := by
    intro url h hurl
    subst hurl
    exact absurd h (by decide)
  refine ⟨?_, ?_, ?_, rfl, rfl⟩
  · intro url h1 h2
    simp [_validate_and_convert_arxiv_url, h1, h2]
  · intro url h1 h2
    simp [_validate_and_convert_arxiv_url, hne url h1, h1, h2]
  · intro url ident h1 h2
    simp [_validate_and_convert_arxiv_url, hne url h1, h1, h2]

/-- Witness for C6's amended theorem: a non-arXiv URL, an arXiv page with no
identifier, and a versioned `.pdf`-suffixed document URL whose identifier is
preserved with the extension stripped. -/
theorem canonicalize_amended_w :
    _validate_and_convert_arxiv_url "http://example.com/a" = .error .nonArxivDomain ∧
    _validate_and_convert_arxiv_url "https://arxiv.org/help" = .error .noArxivId ∧
    _validate_and_convert_arxiv_url "https://arxiv.org/pdf/1234.5678v3.pdf" =
      .ok "https://arxiv.org/pdf/1234.5678v3" :=
  ⟨canonicalize_amended.1 "http://example.com/a" (by decide) rfl,
   canonicalize_amended.2.1 "https://arxiv.org/help" rfl rfl,
   canonicalize_amended.2.2.1 "https://arxiv.org/pdf/1234.5678v3.pdf" "1234.5678v3" rfl rfl⟩

/-! ## C7 — the seen-URL set and deduplication -/

/-- The merge step never removes an entry from the seen set. -/
theorem mergePapers_seen_subset :
    ∀ (vp f : List SearchedPaper) (s : List String), s ⊆ (mergePapers f s vp).2
  | [], _, _ => by simp [mergePapers]
  | p :: ps, f, s => by
    rw [mergePapers]
    split_ifs with h
    · exact mergePapers_seen_subset ps f s
    · exact (List.subset_cons_self _ _).trans (mergePapers_seen_subset ps (f ++ [p]) (p.url :: s))

/-- The merge step preserves the loop invariant: the accumulated URLs are
distinct and all of them are in the seen set. -/
theorem mergePapers_nodup :
    ∀ (vp f : List SearchedPaper) (s : List String),
      (f.map SearchedPaper.url).Nodup → (∀ q ∈ f, q.url ∈ s) →
      ((mergePapers f s vp).1.map SearchedPaper.url).Nodup ∧
        ∀ q ∈ (mergePapers f s vp).1, q.url ∈ (mergePapers f s vp).2
  | [], f, s => by
    intro h1 h2
    simpa [mergePapers] using ⟨h1, h2⟩
  | p :: ps, f, s => by
    intro h1 h2
    rw [mergePapers]
    split_ifs with h
    · exact mergePapers_nodup ps f s h1 h2
    · apply mergePapers_nodup ps (f ++ [p]) (p.url :: s)
      · rw [List.map_append, List.map_singleton]
        apply List.Nodup.append h1 (List.nodup_singleton _)
        intro u hu hu1
        rw [List.mem_singleton] at hu1
        subst hu1
        rcases List.mem_map.mp hu with ⟨q, hq, hqu⟩
        exact h (hqu ▸ h2 q hq)
      · intro q hq
        rcases List.mem_append.mp hq with hq | hq
        · exact List.mem_cons_of_mem _ (h2 q hq)
        · rw [List.mem_singleton] at hq
          subst hq
          exact List.mem_cons_self _ _

/-- The loop preserves the invariant down to the returned list. -/
theorem searchGo_nodup :
    ∀ (cycles : ℕ) (oracle : ℕ → BackendResponse) (mr idx : ℕ)
      (f : List SearchedPaper) (s : List String) (l : List SearchedPaper) (calls : ℕ),
      (f.map SearchedPaper.url).Nodup → (∀ q ∈ f, q.url ∈ s) →
      searchGo oracle mr cycles idx f s = .ok (l, calls) →
      (l.map SearchedPaper.url).Nodup
  | 0, oracle, mr, idx, f, s, l, calls => by
    intro h1 _ hrun
    rw [searchGo] at hrun
    cases hrun
    exact h1
  | cycles + 1, oracle, mr, idx, f, s, l, calls => by
    intro h1 h2 hrun
    rw [searchGo] at hrun
    split_ifs at hrun with hlen
    · cases horacle : oracle idx <;> rw [horacle] at hrun
      · exact Except.noConfusion hrun
      · exact Except.noConfusion hrun
      · exact Except.noConfusion hrun
      · exact Except.noConfusion hrun
      · exact Except.noConfusion hrun
      · next batch =>
          have hinv := mergePapers_nodup (rankingStep (validateBatch batch)) f s h1 h2
          exact searchGo_nodup cycles oracle mr (idx + 1) _ _ l calls hinv.1 hinv.2 hrun
    · cases hrun
      exact h1

/-- C7: the merge step only ever grows the seen set (no entry is removed;
the set starts empty by definition of `search_papers`), and whenever the
discovery call returns a list, its canonical URLs are pairwise distinct —
every canonical URL is accepted at most once, later occurrences within a
batch or across batches being skipped. -/
theorem seen_urls_monotone_and_dedup :
    (∀ (vp f : List SearchedPaper) (s : List String), s ⊆ (mergePapers f s vp).2) ∧
    (∀ (oracle : ℕ → BackendResponse) (maxResults : ℕ)
       (l : List SearchedPaper) (calls : ℕ),
      search_papers oracle maxResults = .ok (l, calls) →
      (l.map SearchedPaper.url).Nodup) :=
  ⟨mergePapers_seen_subset,
   fun oracle maxResults l calls h =>
     searchGo_nodup 5 oracle maxResults 0 [] [] l calls (by simp) (by simp) h⟩

/-- The witness oracle for C7: the second batch repeats the first batch's
first URL (after canonicalization) and adds a fresh one. -/
def c7Oracle : ℕ → BackendResponse
  | 0 => .ok [⟨"https://arxiv.org/abs/2402.11111", "A", "2024-02-01", 1⟩,
              ⟨"https://arxiv.org/abs/2402.22222", "B", "2024-02-02", 2⟩]
  | 1 => .ok [⟨"https://arxiv.org/pdf/2402.11111", "A again", "2024-02-01", 1⟩,
              ⟨"https://arxiv.org/abs/2402.33333", "C", "2024-02-03", 3⟩]
  | _ => .ok []

/-- Witness for C7: on `c7Oracle` the call returns the three distinct
canonical URLs (the repeat of `2402.11111` was skipped), and their list is
duplicate-free. -/
theorem seen_urls_monotone_and_dedup_w :
    (([⟨"https://arxiv.org/pdf/2402.11111", "A", "2024-02-01", 1⟩,
       ⟨"https://arxiv.org/pdf/2402.22222", "B", "2024-02-02", 2⟩,
       ⟨"https://arxiv.org/pdf/2402.33333", "C", "2024-02-03", 3⟩] :
        List SearchedPaper).map SearchedPaper.url).Nodup :=
  seen_urls_monotone_and_dedup.2 c7Oracle 10
    [⟨"https://arxiv.org/pdf/2402.11111", "A", "2024-02-01", 1⟩,
     ⟨"https://arxiv.org/pdf/2402.22222", "B", "2024-02-02", 2⟩,
     ⟨"https://arxiv.org/pdf/2402.33333", "C", "2024-02-03", 3⟩] 5 rfl

/-! ## C10 — filename sanitization -/

/-- Every character emitted by the whitespace collapse is either the
underscore or a non-whitespace character of the input. -/
theorem mem_collapseWsAux :
    ∀ (l : List Char) (b : Bool) (c : Char), c ∈ collapseWsAux b l →
      c = '_' ∨ (c ∈ l ∧ pyIsSpace c = false)
  | [], b, c => by simp [collapseWsAux]
  | d :: rest, b, c => by
    intro h
    rw [collapseWsAux] at h
    by_cases hd : pyIsSpace d
    · rw [if_pos hd] at h
      have step : c ∈ collapseWsAux true rest →
          c = '_' ∨ (c ∈ d :: rest ∧ pyIsSpace c = false) := fun hcc =>
        (mem_collapseWsAux rest true c hcc).imp id
          (fun h1 => ⟨List.mem_cons_of_mem d h1.1, h1.2⟩)
      cases b
      · rcases List.mem_cons.mp (by simpa using h) with hc | hc
        · exact Or.inl hc
        · exact step hc
      · exact step (by simpa using h)
    · rw [if_neg hd] at h
      rcases List.mem_cons.mp h with hc | hc
      · subst hc
        exact Or.inr ⟨List.mem_cons_self _ _, Bool.not_eq_true _ ▸ eq_false_of_ne_true hd⟩
      · rcases mem_collapseWsAux rest false c hc with h1 | h1
        · exact Or.inl h1
        · exact Or.inr ⟨List.mem_cons_of_mem d h1.1, h1.2⟩

/-- On whitespace-free input, the collapse (started outside a run) is the
identity. -/
theorem collapseWsAux_of_clean :
    ∀ l : List Char, (∀ c ∈ l, pyIsSpace c = false) → collapseWsAux false l = l
  | [], _ => rfl
  | d :: rest, h => by
    rw [collapseWsAux, if_neg (by simp [h d (List.mem_cons_self d rest)]),
      collapseWsAux_of_clean rest (fun c hc => h c (List.mem_cons_of_mem d hc))]

/-- Every character of a sanitized filename is neither forbidden nor
whitespace. -/
theorem sanitize_chars_clean (s : String) :
    ∀ c ∈ (_sanitize_filename s).data, isBadFileChar c = false ∧ pyIsSpace c = false := by
  intro c hc
  rw [_sanitize_filename] at hc
  have hc2 : c ∈ collapseWsAux false (s.data.filter (fun c => !isBadFileChar c)) :=
    List.mem_of_mem_take hc
  rcases mem_collapseWsAux _ false c hc2 with h1 | h1
  · subst h1
    exact ⟨rfl, rfl⟩
  · have hb : (!isBadFileChar c) = true := (List.mem_filter.mp h1.1).2
    exact ⟨by simpa using hb, h1.2⟩

/-- C10: sanitization is idempotent; its output contains none of the
forbidden characters `<>:"/\|?*` and no whitespace (runs having been
collapsed to single underscores), and is at most 150 characters long. -/
theorem sanitize_filename_idempotent :
    ∀ s : String,
      _sanitize_filename (_sanitize_filename s) = _sanitize_filename s ∧
      (∀ c ∈ (_sanitize_filename s).data, isBadFileChar c = false ∧ pyIsSpace c = false) ∧
      (_sanitize_filename s).length ≤ 150 := by
  intro s
  have hclean := sanitize_chars_clean s
  have hlen : (_sanitize_filename s).data.length ≤ 150 := by
    rw [_sanitize_filename]
    exact List.length_take_le 150 _
  refine ⟨?_, hclean, hlen⟩
  have hfilter : (_sanitize_filename s).data.filter (fun c => !isBadFileChar c) =
      (_sanitize_filename s).data :=
    List.filter_eq_self.mpr (fun c hc => by simp [(hclean c hc).1])
  conv_lhs => rw [_sanitize_filename, hfilter,
    collapseWsAux_of_clean _ (fun c hc => (hclean c hc).2),
    List.take_of_length_le hlen]

/-- Witness for C10 at the concrete title `"a b:c"` (sanitized: `"a_bc"`). -/
theorem sanitize_filename_idempotent_w :
    _sanitize_filename (_sanitize_filename "a b:c") = _sanitize_filename "a b:c" ∧
    (isBadFileChar 'a' = false ∧ pyIsSpace 'a' = false) ∧
    (_sanitize_filename "a b:c").length ≤ 150 :=
  ⟨(sanitize_filename_idempotent "a b:c").1,
   (sanitize_filename_idempotent "a b:c").2.1 'a' (by decide),
   (sanitize_filename_idempotent "a b:c").2.2⟩

/-! ## C3 — response validation wraps before it parses

Lines 91-93 wrap any response that does not begin with `<` in the container
div *before* line 97 attempts `json.loads`.  A string that begins with `<`
is never valid JSON (no JSON value starts with `<`), and any other string
has been wrapped so that it now begins with `<`; hence the parse always
fails, the `summary`-extraction branch is dead, and a structured JSON
response — which the claim says should have its `summary` field extracted —
is instead wrapped verbatim, with metadata `{"format": "html"}`.  The
source's own comment at line 96 (`# Try to parse as JSON first (in case
model misformats)`) states the intent the wrapping defeats. -/

/-- No fuel lets the parser accept a string starting with `<`. -/
theorem parseJVal_lt (fuel : ℕ) (rest : List Char) :
    parseJVal fuel ('<' :: rest) = none := by
  cases fuel with
  | zero => rfl
  | succ n => rfl

/-- `json.loads` rejects every string that begins with `<`. -/
theorem pyJsonLoads_of_startsLt (s : String) (h : startsLt s = true) :
    pyJsonLoads s = none := by
  rcases hs : s.data with _ | ⟨c, rest⟩
  · rw [startsLt, hs] at h
    exact absurd h (by decide)
  · rw [startsLt, hs] at h
    have hc : c = '<' := by simpa using h
    subst hc
    rw [pyJsonLoads, hs, parseJVal_lt]

/-- The wrapped text always begins with `<`. -/
theorem startsLt_wrapDiv (t : String) : startsLt (wrapDiv t) = true := rfl

/-- Whatever the Generation Service returned, `_validate_html_response`
takes the raw-markup branch: metadata is always `{"format": "html"}` and the
payload is the (possibly wrapped) cleaned text. -/
theorem validate_html_always_html (text : String) :
    ∃ payload : String, _validate_html_response text =
      some ⟨payload, JVal.jobj [("format", JVal.jstr "html")]⟩ := by
  simp only [_validate_html_response]
  by_cases h : startsLt (pyStrip text) = true
  · rw [if_pos h, pyJsonLoads_of_startsLt _ h]
    exact ⟨pyStrip text, rfl⟩
  · rw [if_neg h, pyJsonLoads_of_startsLt _ (startsLt_wrapDiv _)]
    exact ⟨wrapDiv (pyStrip text), rfl⟩

/-- C3: the JSON branch of the response validation is unreachable — every
response yields metadata `{"format": "html"}` — and at the failing input
`'{"summary": "<p>hi</p>"}'`, which `json.loads` itself parses to an object
with a `summary` field, the function returns the wrapped raw text instead of
the extracted summary.  The raw-markup example behaves as the claim states. -/
theorem validate_html_json_branch_dead :
    (∀ text : String, ∃ payload : String, _validate_html_response text =
      some ⟨payload, JVal.jobj [("format", JVal.jstr "html")]⟩) ∧
    pyJsonLoads "\x7b\"summary\": \"<p>hi</p>\"\x7d" =
      some (JVal.jobj [("summary", JVal.jstr "<p>hi</p>")]) ∧
    _validate_html_response "\x7b\"summary\": \"<p>hi</p>\"\x7d" =
      some ⟨"<div class=\"paper-summary\">\x7b\"summary\": \"<p>hi</p>\"\x7d</div>",
            JVal.jobj [("format", JVal.jstr "html")]⟩ ∧
    _validate_html_response "<div>hi</div>" =
      some ⟨"<div>hi</div>", JVal.jobj [("format", JVal.jstr "html")]⟩ :=
  ⟨validate_html_always_html, rfl, rfl, rfl⟩

/-! ## C8 — the worker absorbs every failure -/

/-- The worker's status is always one of the three declared values. -/
theorem worker_status_cases (env : WorkerEnv) (p : WPaper) (level language : String) :
    (_summarize_single_paper env p level language).status = "success" ∨
    (_summarize_single_paper env p level language).status = "fetch_error" ∨
    (_summarize_single_paper env p level language).status = "error" := by
  obtain ⟨fetch, gen, sf, t1, t2⟩ := env
  cases fetch with
  | ok =>
    cases gen with
    | ok text =>
      rcases hv : _validate_html_response text with _ | v
      · right; right
        simp [_summarize_single_paper, hv]
      · left
        simp [_summarize_single_paper, hv]
    | raised m => right; right; rfl
  | httpError m => right; left; rfl
  | otherError m => right; right; rfl

/-- C8: the worker is a total function into `SummaryResult` (exceptions in
the modelled failure points are converted, never propagated): its status is
one of `success`/`fetch_error`/`error`; every non-`success` result carries
the error text; the elapsed time is recorded on every path; and the result
is entirely independent of whether persisting the HTML file fails. -/
theorem summarize_single_never_raises (env : WorkerEnv) (p : WPaper)
    (level language : String) :
    ((_summarize_single_paper env p level language).status = "success" ∨
     (_summarize_single_paper env p level language).status = "fetch_error" ∨
     (_summarize_single_paper env p level language).status = "error") ∧
    ((_summarize_single_paper env p level language).status ≠ "success" →
      ∃ msg, (_summarize_single_paper env p level language).error = some msg) ∧
    (_summarize_single_paper env p level language).processing_time = env.tEnd - env.tStart ∧
    (∀ b : Bool,
      _summarize_single_paper ⟨env.fetch, env.gen, b, env.tStart, env.tEnd⟩ p level language =
        _summarize_single_paper env p level language) := by
  refine ⟨worker_status_cases env p level language, ?_, ?_, ?_⟩ <;>
    obtain ⟨fetch, gen, sf, t1, t2⟩ := env
  · cases fetch with
    | ok =>
      cases gen with
      | ok text =>
        rcases hv : _validate_html_response text with _ | v
        · intro _
          exact ⟨"Processing error: AttributeError",
            by simp [_summarize_single_paper, hv]⟩
        · intro hcon
          exact absurd (by simp [_summarize_single_paper, hv]) hcon
      | raised m => exact fun _ => ⟨_, rfl⟩
    | httpError m => exact fun _ => ⟨_, rfl⟩
    | otherError m => exact fun _ => ⟨_, rfl⟩
  · cases fetch with
    | ok =>
      cases gen with
      | ok text =>
        rcases hv : _validate_html_response text with _ | v <;>
          simp [_summarize_single_paper, hv]
      | raised m => rfl
    | httpError m => rfl
    | otherError m => rfl
  · intro b
    cases fetch with
    | ok =>
      cases gen with
      | ok text =>
        rcases hv : _validate_html_response text with _ | v <;>
          simp [_summarize_single_paper, hv]
      | raised m => rfl
    | httpError m => rfl
    | otherError m => rfl

/-- Witness for C8: a worker run whose fetch fails with an HTTP error has
its error text captured. -/
theorem summarize_single_never_raises_w :
    ∃ msg, (_summarize_single_paper ⟨.httpError "boom", .raised "x", false, 10, 12⟩
      ⟨"https://arxiv.org/pdf/2401.00001", some "T"⟩ "expert" "en").error = some msg :=
  (summarize_single_never_raises ⟨.httpError "boom", .raised "x", false, 10, 12⟩
    ⟨"https://arxiv.org/pdf/2401.00001", some "T"⟩ "expert" "en").2.1 (by decide)

/-! ## C9 — the pipeline reports one result per paper, in order -/

/-- On the statuses the worker can produce, the substring test `"success" in
result.status` coincides with status equality. -/
theorem statusHasSuccess_eq (env : WorkerEnv) (p : WPaper) (level language : String) :
    statusHasSuccess (_summarize_single_paper env p level language) =
      ((_summarize_single_paper env p level language).status == "success") := by
  rcases worker_status_cases env p level language with h | h | h <;>
    rw [statusHasSuccess, h] <;> decide

/-- Both execution modes produce the same output pair. -/
theorem summarize_papers_mode_irrelevant (inputs : List (WorkerEnv × WPaper))
    (level language : String) (b b' : Bool) :
    summarize_papers inputs level language b = summarize_papers inputs level language b' := by
  simp only [summarize_papers, ite_self]

/-- The inputs of C9's concrete example: three papers, the middle fetch
failing with HTTP 500, the others summarized from `"<div>hi</div>"`. -/
def c9Inputs : List (WorkerEnv × WPaper) :=
  [(⟨.ok, .ok "<div>hi</div>", false, 0, 2⟩, ⟨"https://arxiv.org/pdf/2401.00001", some "One"⟩),
   (⟨.httpError "Server error '500 Internal Server Error'", .ok "<div>hi</div>", false, 0, 3⟩,
    ⟨"https://arxiv.org/pdf/2401.00002", some "Two"⟩),
   (⟨.ok, .ok "<div>hi</div>", false, 0, 4⟩, ⟨"https://arxiv.org/pdf/2401.00003", some "Three"⟩)]

/-- C9: for every input list, in either mode, the returned dictionaries are
exactly the per-paper worker results converted in input order (hence one
result per paper, order preserved, same length), and the reported success
count is the number of results whose status equals `"success"`; on the
concrete three-paper example with one failing fetch, 3 results and a success
count of 2 are produced. -/
theorem summarize_papers_order_and_count :
    (∀ (inputs : List (WorkerEnv × WPaper)) (level language : String) (parallel : Bool),
      (summarize_papers inputs level language parallel).1 =
        inputs.map (fun pe => toSummaryDict level language
          (_summarize_single_paper pe.1 pe.2 level language)) ∧
      (summarize_papers inputs level language parallel).1.length = inputs.length ∧
      (summarize_papers inputs level language parallel).2 =
        (inputs.map (fun pe => _summarize_single_paper pe.1 pe.2 level language)).countP
          (fun r => r.status == "success") ∧
      summarize_papers inputs level language parallel =
        summarize_papers inputs level language false) ∧
    (summarize_papers c9Inputs "expert" "en" true).1.length = 3 ∧
    (summarize_papers c9Inputs "expert" "en" true).2 = 2 := by
  refine ⟨fun inputs level language parallel => ⟨?_, ?_, ?_, ?_⟩, rfl, rfl⟩
  · simp only [summarize_papers, ite_self, List.map_map]
    rfl
  · simp only [summarize_papers, ite_self, List.length_map]
  · simp only [summarize_papers, ite_self, List.countP_eq_length_filter]
    congr 1
    apply List.filter_congr
    intro r hr
    rcases List.mem_map.mp hr with ⟨pe, _, hpe⟩
    subst hpe
    exact statusHasSuccess_eq pe.1 pe.2 level language
  · exact summarize_papers_mode_irrelevant inputs level language parallel false
